import Mathlib

/-!
Verification of the `inputiter` iteration core: a slice-backed iterator
(`sliceIter`) and a line-scanning iterator (`scannerIter`) over the
`Iter`/`IterCloser` contract, shallowly embedded from
`cmd/criticality_score/inputiter/iterator.go`.
-/

/-- A Go `error` value: `none` is Go's `nil` error. -/
abbrev GoError := String

/-! ## Sequence Producer (`sliceIter`)

Embedded from `iterator.go` lines 72-95:

    type sliceIter[T any] struct { values []T; next int }
    func (i *sliceIter[T]) Item() T    { return i.values[i.next-1] }
    func (i *sliceIter[T]) Next() bool {
        if i.next <= len(i.values) { i.next++ }
        return i.next <= len(i.values)
    }
    func (i *sliceIter[T]) Err() error   { return nil }
    func (i *sliceIter[T]) Close() error { return nil }

The cursor `next` is a Go `int` that starts at 0 and is only ever
incremented, so `Nat` models it faithfully.
-/

structure sliceIter (T : Type) where
  values : List T
  next : Nat
deriving DecidableEq

/-- List indexing with a (possibly negative) integer index, as Go's
`values[i.next-1]` evaluates the index as an `int`; out-of-bounds access
(including a negative index) is modelled as `none`. -/
def getInt {T : Type} (xs : List T) (i : Int) : Option T :=
  if i < 0 then none else xs.get? i.toNat

/-- The index Go evaluates inside `Item()`: `i.next - 1` over `int`. -/
def sliceIter.itemIndex {T : Type} (i : sliceIter T) : Int :=
  (i.next : Int) - 1

/-- `func (i *sliceIter[T]) Item() T { return i.values[i.next-1] }`,
with the bounds-checked access made explicit as an `Option`. -/
def sliceIter.Item {T : Type} (i : sliceIter T) : Option T :=
  getInt i.values i.itemIndex

/-- `func (i *sliceIter[T]) Next() bool`: mutates the receiver and returns
a boolean, embedded as a state-passing function. -/
def sliceIter.Next {T : Type} (i : sliceIter T) : sliceIter T × Bool :=
  let i' := if i.next ≤ i.values.length then { i with next := i.next + 1 } else i
  (i', decide (i'.next ≤ i'.values.length))

/-- `func (i *sliceIter[T]) Err() error { return nil }` -/
def sliceIter.Err {T : Type} (_ : sliceIter T) : Option GoError :=
  none

/-- `func (i *sliceIter[T]) Close() error { return nil }`: returns a nil
error and does not touch the receiver. -/
def sliceIter.Close {T : Type} (_ : sliceIter T) : Option GoError :=
  none

/-- Construction from a list: a Sequence Producer with `values` the given
list and the cursor at 0 (the Go zero value of the `next` field). -/
def fromSlice {T : Type} (xs : List T) : sliceIter T :=
  { values := xs, next := 0 }

/-- One call in the `Iter`/`IterCloser` API of the Sequence Producer. -/
inductive SliceCall where
  | next
  | item
  | err
  | close
deriving DecidableEq

/-- The state after one API call: only `Next()` assigns to a field of the
receiver; `Item()`, `Err()` and `Close()` read it (or nothing) and leave
it unchanged. -/
def sliceIter.step {T : Type} (i : sliceIter T) : SliceCall → sliceIter T
  | SliceCall.next => (i.Next).1
  | SliceCall.item => i
  | SliceCall.err => i
  | SliceCall.close => i

/-- The state after a sequence of API calls. -/
def sliceIter.run {T : Type} (i : sliceIter T) : List SliceCall → sliceIter T
  | [] => i
  | c :: cs => (i.step c).run cs

/-- The state after `k` consecutive `Next()` calls. -/
def sliceIter.runNexts {T : Type} (i : sliceIter T) : Nat → sliceIter T
  | 0 => i
  | k + 1 => ((i.runNexts k).Next).1

/-! ### Basic lemmas about the Sequence Producer -/

theorem sliceIter.values_Next {T : Type} (i : sliceIter T) :
    ((i.Next).1).values = i.values := by
  unfold sliceIter.Next
  dsimp only
  split <;> rfl

theorem sliceIter.values_step {T : Type} (i : sliceIter T) (c : SliceCall) :
    (i.step c).values = i.values := by
  cases c <;> simp [sliceIter.step, sliceIter.values_Next]

theorem sliceIter.values_run {T : Type} (i : sliceIter T) (cs : List SliceCall) :
    (i.run cs).values = i.values := by
  induction cs generalizing i with
  | nil => rfl
  | cons c cs ih => simp [sliceIter.run, ih, sliceIter.values_step]

theorem sliceIter.next_Next {T : Type} (i : sliceIter T) :
    ((i.Next).1).next = if i.next ≤ i.values.length then i.next + 1 else i.next := by
  unfold sliceIter.Next
  dsimp only
  split <;> simp_all

theorem sliceIter.values_runNexts {T : Type} (i : sliceIter T) (k : Nat) :
    (i.runNexts k).values = i.values := by
  induction k with
  | zero => rfl
  | succ k ih => simp [sliceIter.runNexts, sliceIter.values_Next, ih]

theorem sliceIter.next_runNexts {T : Type} (xs : List T) (k : Nat) :
    ((fromSlice xs).runNexts k).next = min k (xs.length + 1) := by
  induction k with
  | zero => simp [sliceIter.runNexts, fromSlice]
  | succ k ih =>
    simp only [sliceIter.runNexts, sliceIter.next_Next, sliceIter.values_runNexts, ih]
    simp only [fromSlice]
    by_cases h : k ≤ xs.length
    · simp only [min_eq_left (by omega : k ≤ xs.length + 1)]
      simp only [if_pos h]
      omega
    · have : min k (xs.length + 1) = xs.length + 1 := by omega
      rw [this]
      simp only [if_neg (by omega : ¬ xs.length + 1 ≤ xs.length)]
      omega

theorem sliceIter.snd_Next {T : Type} (i : sliceIter T) :
    (i.Next).2 = decide (((i.Next).1).next ≤ i.values.length) := by
  unfold sliceIter.Next
  dsimp only
  split <;> simp_all

/-! ## Line-Scanning Producer (`scannerIter`)

Embedded from `iterator.go` lines 50-70. `scannerIter` wraps an
`io.Closer` and a `bufio.Scanner`; the scanner itself is standard-library
code that is not part of this repository, so it is modelled from the
spec below.
-/

/-- Modelled from the spec: an `io.Closer` (missing from the repository:
only its use in `scannerIter.Close` is in `src`). The spec says `Close()`
"delegates directly to the resource's own close operation and surfaces
any error from it", so the resource is modelled as the error-or-none its
own close operation returns. -/
structure Closer where
  closeErr : Option GoError

/-- `io.Closer.Close`: releasing the resource yields its close result. -/
def Closer.goClose (c : Closer) : Option GoError :=
  c.closeErr

/-- The terminal error a too-long line produces. -/
def errTooLong : GoError := "bufio.Scanner: token too long"

/-- Splits a character list at the first newline: the segment before the
first `\n` and the remainder after it (the `\n` itself consumed). If no
newline is present the whole input is the segment and the remainder is
empty. -/
def splitLine : List Char → List Char × List Char
  | [] => ([], [])
  | c :: cs =>
    if c = '\n' then ([], cs)
    else
      let p := splitLine cs
      (c :: p.1, p.2)

/-- Strips one trailing carriage return from a line, so that lines are
"delimited by the conventional newline sequence(s)" with "delimiters
stripped from returned items". -/
def dropCR (l : List Char) : List Char :=
  if l.getLast? = some '\r' then l.dropLast else l

/-- Modelled from the spec: `bufio.Scanner` in line-splitting mode
(missing from the repository: only its use in `scannerIter` is in `src`).
State: the remaining unread input, the most recently produced token, the
terminal error (or none), whether clean end-of-input was reached, and the
implementation-chosen maximum line length. -/
structure Scanner where
  input : List Char
  tok : List Char
  err : Option GoError
  done : Bool
  maxTokenSize : Nat
deriving DecidableEq

/-- Modelled from the spec: `bufio.Scanner.Scan`. Returns false with the
state unchanged once a terminal error is recorded or end-of-input was
reached; on empty remaining input records clean end-of-input and returns
false with `err` still none; otherwise takes the next line, fails with
the too-long terminal error if it exceeds the maximum buffered size, and
else makes it the current token (terminators stripped) and returns
true. -/
def Scanner.Scan (s : Scanner) : Scanner × Bool :=
  if s.err.isSome ∨ s.done then (s, false)
  else if s.input = [] then ({ s with done := true }, false)
  else
    let p := splitLine s.input
    if s.maxTokenSize < p.1.length then
      ({ s with err := some errTooLong }, false)
    else
      ({ s with input := p.2, tok := dropCR p.1 }, true)

/-- Modelled from the spec: `bufio.Scanner.Text` returns the most
recently produced token as text. -/
def Scanner.text (s : Scanner) : String :=
  String.mk s.tok

/-- `type scannerIter struct { c io.Closer; scanner *bufio.Scanner }` -/
structure scannerIter where
  c : Closer
  scanner : Scanner

/-- `func (i *scannerIter) Item() string { return i.scanner.Text() }` -/
def scannerIter.Item (i : scannerIter) : String :=
  i.scanner.text

/-- `func (i *scannerIter) Next() bool { return i.scanner.Scan() }`,
with the scanner's mutation made explicit. -/
def scannerIter.Next (i : scannerIter) : scannerIter × Bool :=
  let p := i.scanner.Scan
  ({ i with scanner := p.1 }, p.2)

/-- `func (i *scannerIter) Err() error { return i.scanner.Err() }`;
`bufio.Scanner.Err` reports the recorded terminal error. -/
def scannerIter.Err (i : scannerIter) : Option GoError :=
  i.scanner.err

/-- `func (i *scannerIter) Close() error { return i.c.Close() }` -/
def scannerIter.Close (i : scannerIter) : Option GoError :=
  i.c.goClose

/-- Construction from a resource: wraps the resource's content in a
fresh line-splitter with the default maximum line length (Go's
`bufio.MaxScanTokenSize` = 64 * 1024) and keeps the closer. -/
def fromReader (content : List Char) (c : Closer) : scannerIter :=
  { c := c
    scanner := { input := content, tok := [], err := none, done := false,
                 maxTokenSize := 65536 } }

/-! ### Shared lemmas for the claim theorems -/

/-- The result of the `(j+1)`-th `Next()` call (0-indexed `j`) on a
freshly constructed Sequence Producer is exactly `j < length`. -/
theorem sliceIter.nextResult_runNexts {T : Type} (xs : List T) (j : Nat) :
    (((fromSlice xs).runNexts j).Next).2 = decide (j < xs.length) := by
  have h1 : (((fromSlice xs).runNexts j).Next).1 = (fromSlice xs).runNexts (j + 1) := rfl
  rw [sliceIter.snd_Next, h1, sliceIter.next_runNexts, sliceIter.values_runNexts]
  simp only [fromSlice]
  rw [decide_eq_decide]
  omega

/-- The cursor bound `next ≤ length + 1` is preserved by every sequence
of API calls. -/
theorem sliceIter.run_cursor_bound {T : Type} (i : sliceIter T) (cs : List SliceCall)
    (h : i.next ≤ i.values.length + 1) :
    (i.run cs).next ≤ (i.run cs).values.length + 1 := by
  induction cs generalizing i with
  | nil => exact h
  | cons c cs ih =>
    refine ih _ ?_
    cases c
    · simp only [sliceIter.step, sliceIter.next_Next, sliceIter.values_Next]
      split <;> omega
    all_goals exact h

/-! ## Claim theorems: Sequence Producer -/

/-- C1 (counterexample): the claim says the cursor always stays in
`[0, length]`, but a single `Next()` call on a producer built from the
empty list takes the cursor to 1, above the list length 0. -/
theorem C1_cursor_range_counterexample :
    ¬ (((fromSlice ([] : List Nat)).run [SliceCall.next]).next ≤ ([] : List Nat).length) := by
  decide

/-- C1 (amended): starting at 0 on construction, every sequence of
`Next()`/`Item()`/`Err()`/`Close()` calls keeps the cursor within
`[0, length + 1]` (not `[0, length]`), and it is cursor = length + 1
(not length) that signals exhaustion: a `Next()` call returns false
exactly when it leaves the cursor at length + 1. -/
theorem C1_cursor_range_amended {T : Type} (xs : List T) (cs : List SliceCall) :
    ((fromSlice xs).run cs).next ≤ xs.length + 1 ∧
      ((((fromSlice xs).run cs).Next).2 = false ↔
        ((((fromSlice xs).run cs).Next).1).next = xs.length + 1) := by
  have hv : ((fromSlice xs).run cs).values = xs := by
    rw [sliceIter.values_run]; rfl
  have hinv : ((fromSlice xs).run cs).next ≤ xs.length + 1 := by
    have h0 : (fromSlice xs).next ≤ (fromSlice xs).values.length + 1 := by
      simp [fromSlice]
    have := sliceIter.run_cursor_bound (fromSlice xs) cs h0
    rwa [hv] at this
  refine ⟨hinv, ?_⟩
  rw [sliceIter.snd_Next, sliceIter.next_Next, hv]
  split
  · simp only [decide_eq_false_iff_not, not_le]
    omega
  · simp only [decide_eq_false_iff_not, not_le]
    omega

/-- C2 (counterexample): the claim says that when the cursor has reached
the list length, `Next()` leaves the cursor at the list length; but on a
producer built from the empty list (cursor 0 = length 0) `Next()` moves
the cursor to 1 ≠ 0 = length. -/
theorem C2_next_counterexample :
    ((fromSlice ([] : List Nat)).next = ([] : List Nat).length) ∧
      (((fromSlice ([] : List Nat)).Next).1).next = 1 ∧
      ([] : List Nat).length = 0 := by
  decide

/-- C2 (amended): `Next()` increments the cursor by one whenever the
cursor is at most the list length — including when it equals the length,
in which case it moves to length + 1 rather than staying — and leaves
the cursor unchanged otherwise; it returns true exactly when the
pre-call cursor was strictly below the list length. -/
theorem C2_next_amended {T : Type} (i : sliceIter T) :
    i.Next = ({ values := i.values,
                next := if i.next ≤ i.values.length then i.next + 1 else i.next },
              decide (i.next < i.values.length)) := by
  unfold sliceIter.Next
  dsimp only
  split
  · next h =>
    refine Prod.ext_iff.mpr ⟨rfl, ?_⟩
    show decide (i.next + 1 ≤ i.values.length) = decide (i.next < i.values.length)
    simp only [decide_eq_decide]
    omega
  · next h =>
    refine Prod.ext_iff.mpr ⟨rfl, ?_⟩
    show decide (i.next ≤ i.values.length) = decide (i.next < i.values.length)
    simp only [decide_eq_decide]
    omega

/-- C3: on a Sequence Producer built from a list of length N, the call
number j (0-indexed, so the first N calls and no others) returns true
exactly when j < N, and `Err()` is none at every point of the
iteration; for the empty list this makes the very first `Next()` return
false. -/
theorem C3_next_result_sequence {T : Type} (xs : List T) (j : Nat) :
    ((((fromSlice xs).runNexts j).Next).2 = decide (j < xs.length)) ∧
      ((fromSlice xs).runNexts j).Err = none :=
  ⟨sliceIter.nextResult_runNexts xs j, rfl⟩

/-- C4: for every k in [1, N], the k-th `Next()` call returns true and
`Item()` immediately after it returns the element of the original list
at index k - 1. -/
theorem C4_item_after_kth_next {T : Type} (xs : List T) (k : Nat)
    (h : 1 ≤ k ∧ k ≤ xs.length) :
    ((((fromSlice xs).runNexts (k - 1)).Next).2 = true) ∧
      ((fromSlice xs).runNexts k).Item = xs.get? (k - 1) := by
  obtain ⟨h1, h2⟩ := h
  constructor
  · rw [sliceIter.nextResult_runNexts]
    simp only [decide_eq_true_eq]
    omega
  · unfold sliceIter.Item getInt sliceIter.itemIndex
    rw [sliceIter.next_runNexts, sliceIter.values_runNexts]
    simp only [fromSlice]
    have hmin : min k (xs.length + 1) = k := by omega
    rw [hmin]
    rw [if_neg (by omega : ¬ ((k : Int) - 1 < 0))]
    congr 1
    omega

/-- C4 (witness): instantiated with the list [10, 20, 30] and k = 2. -/
theorem C4_item_after_kth_next_witness :
    (1 ≤ 2 ∧ 2 ≤ [10, 20, 30].length) ∧
      (((((fromSlice [10, 20, 30]).runNexts (2 - 1)).Next).2 = true) ∧
        ((fromSlice [10, 20, 30]).runNexts 2).Item = [10, 20, 30].get? (2 - 1)) :=
  ⟨by decide, C4_item_after_kth_next [10, 20, 30] 2 (by decide)⟩

/-- C5 (counterexample): the claim takes cursor = length as the
exhausted state and says `Next()` is then a state-preserving no-op; but
a producer built from the empty list is in that state (cursor 0 =
length 0) and `Next()` changes its state, moving the cursor to 1. -/
theorem C5_exhaustion_counterexample :
    (fromSlice ([] : List Nat)).next = ([] : List Nat).length ∧
      ((fromSlice ([] : List Nat)).Next).1 ≠ fromSlice ([] : List Nat) := by
  decide

/-- C5 (amended): the exhausted state is cursor = length + 1 (not
length): once it is reached every subsequent `Next()` call is an
idempotent no-op that leaves the state unchanged and returns false, and
exhaustion is permanent — once some `Next()` call on a freshly built
producer returns false, every later call returns false as well. -/
theorem C5_exhaustion_amended :
    (∀ (T : Type) (i : sliceIter T),
        i.next = i.values.length + 1 → i.Next = (i, false)) ∧
      (∀ (T : Type) (xs : List T) (j j' : Nat), j ≤ j' →
        (((fromSlice xs).runNexts j).Next).2 = false →
        (((fromSlice xs).runNexts j').Next).2 = false) := by
  constructor
  · intro T i h
    unfold sliceIter.Next
    dsimp only
    rw [if_neg (by omega)]
    simp only [Prod.mk.injEq, decide_eq_false_iff_not, not_le]
    exact ⟨trivial, by omega⟩
  · intro T xs j j' hle h
    rw [sliceIter.nextResult_runNexts] at h ⊢
    simp only [decide_eq_false_iff_not, not_lt] at h ⊢
    omega

/-- C5 (witness): the no-op at the state ⟨[10, 20], 3⟩ with cursor
3 = length + 1, and permanence from the 3rd to the 4th call on
[10, 20]. -/
theorem C5_exhaustion_witness :
    ((⟨[10, 20], 3⟩ : sliceIter Nat).Next = (⟨[10, 20], 3⟩, false)) ∧
      (((fromSlice ([10, 20] : List Nat)).runNexts 3).Next).2 = false :=
  ⟨C5_exhaustion_amended.1 Nat ⟨[10, 20], 3⟩ (by decide),
   C5_exhaustion_amended.2 Nat [10, 20] 2 3 (by decide) (by decide)⟩

/-- C7: the Sequence Producer never mutates its backing list — after any
sequence of API calls the `values` field is still the original list;
`Next()` preserves `values`; and `Item()`, `Err()` and `Close()` leave
the whole state (cursor included) unchanged, so only `Next()` ever
changes the cursor. -/
theorem C7_values_never_mutated {T : Type} (xs : List T) (cs : List SliceCall)
    (i : sliceIter T) :
    ((fromSlice xs).run cs).values = xs ∧
      ((i.Next).1).values = i.values ∧
      i.step SliceCall.item = i ∧
      i.step SliceCall.err = i ∧
      i.step SliceCall.close = i := by
  refine ⟨?_, sliceIter.values_Next i, rfl, rfl, rfl⟩
  rw [sliceIter.values_run]; rfl

/-- Evaluating the `Item()` access at a cursor `n ≥ 1`: the integer index
`n - 1` is non-negative, so the access is ordinary list indexing. -/
theorem getInt_cursor {T : Type} (xs : List T) (n : Nat) (h : 1 ≤ n) :
    getInt xs ((n : Int) - 1) = xs.get? (n - 1) := by
  unfold getInt
  rw [if_neg (by omega)]
  congr 1
  omega

/-- C10: whenever the most recent `Next()` call returned true, the index
cursor - 1 used by `Item()` lies in [0, N) and the access is in bounds
(`Item()` yields some element); calling `Item()` before any `Next()`
accesses index -1, and calling it right after a false-returning `Next()`
accesses an index ≥ N — both out of bounds, so the embedded access
yields none. -/
theorem C10_item_access_bounds {T : Type} (xs : List T) (k : Nat) :
    ((((fromSlice xs).runNexts k).Next).2 = true →
      0 ≤ ((fromSlice xs).runNexts (k + 1)).itemIndex ∧
        ((fromSlice xs).runNexts (k + 1)).itemIndex < xs.length ∧
        (((fromSlice xs).runNexts (k + 1)).Item).isSome = true) ∧
      ((fromSlice xs).itemIndex = -1 ∧ (fromSlice xs).Item = none) ∧
      ((((fromSlice xs).runNexts k).Next).2 = false →
        (xs.length : Int) ≤ ((fromSlice xs).runNexts (k + 1)).itemIndex ∧
          ((fromSlice xs).runNexts (k + 1)).Item = none) := by
  have hidx : ((fromSlice xs).runNexts (k + 1)).itemIndex
      = (min (k + 1) (xs.length + 1) : Nat) - 1 := by
    unfold sliceIter.itemIndex
    rw [sliceIter.next_runNexts]
  have hitem : ((fromSlice xs).runNexts (k + 1)).Item
      = xs.get? (min (k + 1) (xs.length + 1) - 1) := by
    unfold sliceIter.Item
    rw [hidx, sliceIter.values_runNexts]
    have h1 : 1 ≤ min (k + 1) (xs.length + 1) := by omega
    rw [getInt_cursor _ _ h1]
    rfl
  have hres := sliceIter.nextResult_runNexts xs k
  have hm1 : (-1 : Int) < 0 := by decide
  refine ⟨?_, ⟨rfl, ?_⟩, ?_⟩
  · intro h
    rw [h] at hres
    have hk : k < xs.length := by simpa using hres.symm
    have hmin : min (k + 1) (xs.length + 1) = k + 1 := by omega
    refine ⟨by rw [hidx]; omega, by rw [hidx]; omega, ?_⟩
    rw [hitem, hmin]
    simp only [Nat.add_sub_cancel]
    rw [List.get?_eq_get hk]
    rfl
  · show getInt (fromSlice xs).values (fromSlice xs).itemIndex = none
    unfold getInt
    exact if_pos hm1
  · intro h
    rw [h] at hres
    have hk : xs.length ≤ k := by simpa using hres.symm
    have hmin : min (k + 1) (xs.length + 1) = xs.length + 1 := by omega
    refine ⟨by rw [hidx, hmin]; omega, ?_⟩
    rw [hitem, hmin]
    simp only [Nat.add_sub_cancel]
    exact List.get?_eq_none.mpr (by omega)

/-- C10 (witness): instantiated with the list [5]: the first call
returns true and the access after it is in bounds; the second call
returns false and the access after it is out of bounds. -/
theorem C10_item_access_bounds_witness :
    ((0 ≤ ((fromSlice [5]).runNexts 1).itemIndex ∧
        ((fromSlice [5]).runNexts 1).itemIndex < [5].length ∧
        (((fromSlice [5]).runNexts 1).Item).isSome = true) ∧
      (([5].length : Int) ≤ ((fromSlice [5]).runNexts 2).itemIndex ∧
        ((fromSlice [5]).runNexts 2).Item = none)) :=
  ⟨(C10_item_access_bounds [5] 0).1 (by decide),
   (C10_item_access_bounds [5] 1).2.2 (by decide)⟩

/-! ## Claim theorems: Line-Scanning Producer -/

/-- C6: when the next line exceeds the maximum buffered size, the
failure is treated identically to an I/O failure: `Next()` returns
false, `Err()` afterwards returns the too-long error (not none), and
iteration is permanently terminated — every further `Next()` call
leaves the state unchanged and returns false. -/
theorem C6_token_too_long (i : scannerIter)
    (h1 : i.scanner.err = none) (h2 : i.scanner.done = false)
    (h3 : ¬ i.scanner.input = [])
    (h4 : i.scanner.maxTokenSize < (splitLine i.scanner.input).1.length) :
    (i.Next).2 = false ∧
      ((i.Next).1).Err = some errTooLong ∧
      (((i.Next).1).Next) = ((i.Next).1, false) := by
  have hscan : i.scanner.Scan = ({ i.scanner with err := some errTooLong }, false) := by
    unfold Scanner.Scan
    rw [h1, h2]
    simp only [Option.isSome_none, Bool.false_eq_true, or_self, if_false]
    rw [if_neg h3, if_pos h4, h2]
  have hNext : i.Next = ({ i with scanner := { i.scanner with err := some errTooLong } },
      false) := by
    unfold scannerIter.Next
    rw [hscan]
  refine ⟨by rw [hNext], by rw [hNext]; rfl, ?_⟩
  rw [hNext]
  unfold scannerIter.Next Scanner.Scan
  simp only [Option.isSome_some, true_or, if_true]

/-- C6 (witness): instantiated at an open scanner over "aaa\nb" with
maximum line length 2: the line "aaa" is too long. -/
theorem C6_token_too_long_witness :
    (((scannerIter.mk ⟨none⟩ ⟨"aaa\nb".data, [], none, false, 2⟩).Next).2 = false ∧
      (((scannerIter.mk ⟨none⟩ ⟨"aaa\nb".data, [], none, false, 2⟩).Next).1).Err
        = some errTooLong ∧
      ((((scannerIter.mk ⟨none⟩ ⟨"aaa\nb".data, [], none, false, 2⟩).Next).1).Next)
        = (((scannerIter.mk ⟨none⟩ ⟨"aaa\nb".data, [], none, false, 2⟩).Next).1, false)) :=
  C6_token_too_long (scannerIter.mk ⟨none⟩ ⟨"aaa\nb".data, [], none, false, 2⟩)
    rfl rfl (by decide) (by decide)

/-- C8: `Close()` on a Line-Scanning Producer delegates directly to the
wrapped resource's own close operation and returns exactly the
error-or-none that the resource's close returns, independent of any
iteration error (the scanner state does not affect the result). -/
theorem C8_close_delegates (c : Closer) (s s' : Scanner) :
    (scannerIter.mk c s).Close = c.goClose ∧
      (scannerIter.mk c s).Close = (scannerIter.mk c s').Close :=
  ⟨rfl, rfl⟩

/-- C9: over the input "a\nb\nc" (no trailing newline) three `Next()`
calls return true with `Item()` yielding "a", "b", "c" in order, a
fourth `Next()` returns false, `Err()` is none and `Close()` succeeds;
over "a\nb\n" exactly the two items "a" and "b" are produced and the
third `Next()` returns false with no spurious empty third item. -/
theorem C9_concrete_line_scans :
    (((fromReader ("a\nb\nc".data) ⟨none⟩).Next).2 = true ∧
      (((fromReader ("a\nb\nc".data) ⟨none⟩).Next).1).Item = "a" ∧
      (((((fromReader ("a\nb\nc".data) ⟨none⟩).Next).1).Next).2 = true) ∧
      ((((fromReader ("a\nb\nc".data) ⟨none⟩).Next).1).Next).1.Item = "b" ∧
      (((((fromReader ("a\nb\nc".data) ⟨none⟩).Next).1).Next).1.Next).2 = true ∧
      (((((fromReader ("a\nb\nc".data) ⟨none⟩).Next).1).Next).1.Next).1.Item = "c" ∧
      ((((((fromReader ("a\nb\nc".data) ⟨none⟩).Next).1).Next).1.Next).1.Next).2 = false ∧
      ((((((fromReader ("a\nb\nc".data) ⟨none⟩).Next).1).Next).1.Next).1.Next).1.Err = none ∧
      ((((((fromReader ("a\nb\nc".data) ⟨none⟩).Next).1).Next).1.Next).1.Next).1.Close
        = none) ∧
    (((fromReader ("a\nb\n".data) ⟨none⟩).Next).2 = true ∧
      (((fromReader ("a\nb\n".data) ⟨none⟩).Next).1).Item = "a" ∧
      ((((fromReader ("a\nb\n".data) ⟨none⟩).Next).1).Next).2 = true ∧
      ((((fromReader ("a\nb\n".data) ⟨none⟩).Next).1).Next).1.Item = "b" ∧
      (((((fromReader ("a\nb\n".data) ⟨none⟩).Next).1).Next).1.Next).2 = false ∧
      (((((fromReader ("a\nb\n".data) ⟨none⟩).Next).1).Next).1.Next).1.Err = none) := by
  decide
